import Mathlib

/-!
Verification of quick-lint-js `rc_string` (src/quick-lint-js/rc-string.h).

`rc_string` is a one-word string handle: the word is a tagged pointer whose
most-significant bit (bit 63 on x86-64) distinguishes an adopted ("borrowed")
foreign C string from a heap-allocated, reference-counted copy.  We embed the
class shallowly:

* machine words are `Nat` (all relevant operations keep results below 2^64);
* the heap is an association list mapping the address of a
  `ref_counted_string_data::data` buffer to the block stored there;
* a handle is just its tagged word `data_ : Nat`;
* fallible/trapping operations (QLJS_ASSERT, stores through a null pointer
  returned by a failed malloc, touching freed memory) return `Except Err _`.

Field and function names follow the C++ source.
-/

namespace RcString

/-- Number of values of a 64-bit machine word. -/
def wordSize : Nat := 2 ^ 64

/-- Source line 83: `no_ref_count_mask = 1ULL << 63`. -/
def no_ref_count_mask : Nat := 2 ^ 63

/-- Source line 84: `no_ref_count_bits = 1ULL << 63`. -/
def no_ref_count_bits : Nat := 2 ^ 63

/-- Source lines 147-149: a tagged word denotes a ref-counted string iff
`(p & no_ref_count_mask) != no_ref_count_bits`. -/
def is_ref_counted (p : Nat) : Bool :=
  (p &&& no_ref_count_mask) != no_ref_count_bits

/-- Bitwise complement of `no_ref_count_mask` within a 64-bit word:
`~no_ref_count_mask` on `std::uintptr_t`, i.e. `2^63 - 1`. -/
def not_mask : Nat := wordSize - 1 - no_ref_count_mask

/-- Source lines 153-157: `encode_ref_counted` returns the address unchanged
(the tag bit is clear for ref-counted pointers).  The C++ body also runs
`QLJS_ASSERT(is_ref_counted(encoded))`; that precondition appears as a
hypothesis in the theorems that need it.  NOTE: this function is dead code in
the source — nothing ever calls it. -/
def encode_ref_counted (p : Nat) : Nat := p

/-- Source lines 161-170: `encode_not_ref_counted` sets the tag bit:
`(raw & ~no_ref_count_mask) | no_ref_count_bits`.  The C++ body also runs
`QLJS_ASSERT(is_ref_counted(raw))` before encoding; that precondition appears
as a hypothesis in the theorems that need it. -/
def encode_not_ref_counted (p : Nat) : Nat :=
  (p &&& not_mask) ||| no_ref_count_bits

/-- Source lines 173-176: `decode` clears the tag bit:
`(p | no_ref_count_mask) & ~no_ref_count_bits`. -/
def decode (p : Nat) : Nat :=
  (p ||| no_ref_count_mask) &&& not_mask

/-- Address of the static empty string literal `""` used by
`encoded_empty_string` (source lines 178-180).  Any concrete non-null address
with bit 63 clear works; we fix one for executability. -/
def empty_string_addr : Nat := 1

/-- Source lines 178-180: `encoded_empty_string = encode_not_ref_counted("")`. -/
def encoded_empty_string : Nat := encode_not_ref_counted empty_string_addr

end RcString

namespace RcString

/-- Largest value of the C `int` used as `ref_count_type` (source line 72). -/
def intMax : Int := 2 ^ 31 - 1

/-- Smallest value of the C `int` used as `ref_count_type`. -/
def intMin : Int := -(2 ^ 31)

/-- Source line 74: `initial_ref_count = 0`. -/
def initial_ref_count : Int := 0

/-- Modelled from the spec: `checked_add` lives in
`quick-lint-js/math-overflow.h`, which is not part of the provided sources.
The spec describes it as the overflow-checked counter helper
`try_increment(count) -> Option<count>`: it returns the exact sum when it is
representable in the counter type and nothing on overflow, never a wrapped
value. -/
def checked_add (a b : Int) : Option Int :=
  if intMin ≤ a + b ∧ a + b ≤ intMax then some (a + b) else none

/-- Source lines 89-92: the heap record `ref_counted_string_data`
`{ref_count_type ref_count; char data[1];}`.  `data` holds the whole inline
buffer (content bytes plus the null terminator). -/
structure ref_counted_string_data where
  ref_count : Int
  data : List Nat
deriving DecidableEq, Repr

/-- The heap: a finite map from the address of a block's `data` buffer to the
block.  (`allocated_string_data`, source lines 137-141, recovers the block
header from the data pointer by subtracting `offsetof`; keying blocks by their
data address models exactly that recovery.) -/
abbrev Heap := List (Nat × ref_counted_string_data)

def heapLookup : Heap → Nat → Option ref_counted_string_data
  | [], _ => none
  | (a, d) :: rest, addr => if a = addr then some d else heapLookup rest addr

def heapUpdate : Heap → Nat → ref_counted_string_data → Heap
  | [], _, _ => []
  | (a, d) :: rest, addr, v =>
    if a = addr then (a, v) :: rest else (a, d) :: heapUpdate rest addr v

/-- `std::free` of a block: remove it from the heap. -/
def heapErase : Heap → Nat → Heap
  | [], _ => []
  | (a, d) :: rest, addr =>
    if a = addr then rest else (a, d) :: heapErase rest addr

/-- Run-time failures of the embedded code. -/
inductive Err where
  /-- A QLJS_ASSERT fired (fatal assertion). -/
  | assertionFailure
  /-- A store through the null pointer returned by a failed `std::malloc`
  (the copy constructor writes `data->ref_count` without a null check). -/
  | nullStore
  /-- A read or write of heap memory that is not (or no longer) allocated. -/
  | invalidAccess
deriving DecidableEq, Repr

/-- Source lines 112-119, `increment_ref_count`: when the word is tagged
ref-counted, add 1 to the block's `ref_count` through `checked_add`;
`QLJS_ASSERT(new_ref_count.has_value())` turns overflow into a fatal
assertion.  Not-ref-counted words are untouched. -/
def increment_ref_count (h : Heap) (data_ : Nat) : Except Err Heap :=
  if is_ref_counted data_ then
    match heapLookup h data_ with
    | none => .error .invalidAccess
    | some d =>
      match checked_add d.ref_count 1 with
      | none => .error .assertionFailure
      | some n => .ok (heapUpdate h data_ { ref_count := n, data := d.data })
  else .ok h

/-- Source lines 121-130, `decrement_ref_count`: when the word is tagged
ref-counted, free the block if its `ref_count` is already at
`initial_ref_count` (the sole-owner floor), else decrement it.
Not-ref-counted words are untouched. -/
def decrement_ref_count (h : Heap) (data_ : Nat) : Except Err Heap :=
  if is_ref_counted data_ then
    match heapLookup h data_ with
    | none => .error .invalidAccess
    | some d =>
      if d.ref_count = initial_ref_count then .ok (heapErase h data_)
      else .ok (heapUpdate h data_ { ref_count := d.ref_count - 1, data := d.data })
  else .ok h

/-- Source lines 97-99, the `adopt_tag` constructor / `adopt_c_string`:
store `encode_not_ref_counted(c_string)`; no allocation. -/
def adopt_c_string (c_string : Nat) : Nat := encode_not_ref_counted c_string

/-- Source lines 101-110, the `copy_tag` constructor / `copy_c_string`.
`s` is the null-free content of the source C string, so
`std::strlen` returns `s.length` and the `std::memcpy` of
`size = length + 1` bytes copies `s ++ [0]`.  `allocResult` is the outcome of
`std::malloc`: `some addr` is the address the fresh block's `data` buffer will
have, `none` is allocation failure — the constructor does not check for null,
so the store `data->ref_count = initial_ref_count` then traps.
The stored word is `encode_not_ref_counted(data->data)` — exactly as on
source line 109. -/
def copy_c_string (h : Heap) (s : List Nat) (allocResult : Option Nat) :
    Except Err (Heap × Nat) :=
  match allocResult with
  | none => .error .nullStore
  | some addr =>
    .ok ((addr, { ref_count := initial_ref_count, data := s ++ [0] }) :: h,
      encode_not_ref_counted addr)

/-- Source lines 40-42, the copy constructor: duplicate the word, then
`increment_ref_count`.  Returns (heap, new handle's word). -/
def copy_construct (h : Heap) (other : Nat) : Except Err (Heap × Nat) :=
  match increment_ref_count h other with
  | .error e => .error e
  | .ok h2 => .ok (h2, other)

/-- Source lines 44-47, the move constructor: take the source's word via
`std::exchange`, leaving the source holding `encoded_empty_string`, then call
`increment_ref_count` on the source (whose word is now the sentinel).
Returns (heap, destination word, source's new word). -/
def move_construct (h : Heap) (src : Nat) : Except Err (Heap × Nat × Nat) :=
  match increment_ref_count h encoded_empty_string with
  | .error e => .error e
  | .ok h2 => .ok (h2, src, encoded_empty_string)

/-- Source lines 49-56, copy assignment.  `sameObject` models the C++ address
comparison `this != &other`: `true` means `h = h` on one object, in which case
the body is skipped.  Otherwise: `decrement_ref_count` on the destination's
old word, adopt the source's word, `increment_ref_count`.
Returns (heap, destination's new word). -/
def copy_assign (h : Heap) (dst src : Nat) (sameObject : Bool) :
    Except Err (Heap × Nat) :=
  if sameObject then .ok (h, dst)
  else
    match decrement_ref_count h dst with
    | .error e => .error e
    | .ok h2 =>
      match increment_ref_count h2 src with
      | .error e => .error e
      | .ok h3 => .ok (h3, src)

/-- Source lines 58-65, move assignment.  `sameObject` models `this != &other`.
Otherwise: `decrement_ref_count` on the destination's old word, take the
source's word via `std::exchange` (source becomes the empty sentinel), then
`increment_ref_count` on the source's new word.
Returns (heap, destination's new word, source's new word). -/
def move_assign (h : Heap) (dst src : Nat) (sameObject : Bool) :
    Except Err (Heap × Nat × Nat) :=
  if sameObject then .ok (h, dst, src)
  else
    match decrement_ref_count h dst with
    | .error e => .error e
    | .ok h2 =>
      match increment_ref_count h2 encoded_empty_string with
      | .error e => .error e
      | .ok h3 => .ok (h3, src, encoded_empty_string)

/-- Source line 67, the destructor: `decrement_ref_count`. -/
def destruct (h : Heap) (data_ : Nat) : Except Err Heap :=
  decrement_ref_count h data_

/-- Source line 69: `c_str` returns `decode(data_)`. -/
def c_str (data_ : Nat) : Nat := decode data_

/-- Read-only foreign memory (adopted C strings, string literals): a map from
an address to the null-terminated byte sequence starting there. -/
abbrev ExtMem := List (Nat × List Nat)

def extLookup : ExtMem → Nat → Option (List Nat)
  | [], _ => none
  | (a, s) :: rest, addr => if a = addr then some s else extLookup rest addr

/-- The bytes (content plus terminator) a handle's `c_str()` pointer points
at: a heap block's inline buffer if one lives at that address, otherwise
foreign memory. -/
def view (ext : ExtMem) (h : Heap) (data_ : Nat) : Option (List Nat) :=
  match heapLookup h (c_str data_) with
  | some d => some d.data
  | none => extLookup ext (c_str data_)

end RcString

namespace RcString

theorem not_mask_eq : not_mask = 2 ^ 63 - 1 := rfl

/-- Words below 2^63 (tag bit clear) are fixed points of `decode`. -/
theorem decode_of_lt (p : Nat) (hp : p < 2 ^ 63) : decode p = p := by
  apply Nat.eq_of_testBit_eq
  intro i
  rw [decode, not_mask_eq, no_ref_count_mask, Nat.testBit_land, Nat.testBit_lor,
    Nat.testBit_two_pow_sub_one, Nat.testBit_two_pow]
  by_cases hi : i < 63
  · have h63 : ¬(63 = i) := by omega
    simp [hi, h63]
  · have hbit : p.testBit i = false :=
      Nat.testBit_eq_false_of_lt
        (lt_of_lt_of_le hp (Nat.pow_le_pow_right (by norm_num) (by omega)))
    simp [hi, hbit]

/-- Setting the tag bit with `encode_not_ref_counted` and clearing it with
`decode` reconstructs any address below 2^63 bit-for-bit. -/
theorem decode_encode_not_of_lt (p : Nat) (hp : p < 2 ^ 63) :
    decode (encode_not_ref_counted p) = p := by
  apply Nat.eq_of_testBit_eq
  intro i
  rw [decode, encode_not_ref_counted, not_mask_eq, no_ref_count_mask, no_ref_count_bits,
    Nat.testBit_land, Nat.testBit_lor, Nat.testBit_lor, Nat.testBit_land,
    Nat.testBit_two_pow_sub_one, Nat.testBit_two_pow]
  by_cases hi : i < 63
  · have h63 : ¬(63 = i) := by omega
    simp [hi, h63]
  · have hbit : p.testBit i = false :=
      Nat.testBit_eq_false_of_lt
        (lt_of_lt_of_le hp (Nat.pow_le_pow_right (by norm_num) (by omega)))
    simp [hi, hbit]

/-- Updating the entry under an allocated key makes lookup at that key return
the new value. -/
theorem heapLookup_update_self (h : Heap) (a : Nat) (d v : ref_counted_string_data)
    (hl : heapLookup h a = some d) :
    heapLookup (heapUpdate h a v) a = some v := by
  induction h with
  | nil => simp [heapLookup] at hl
  | cons hd tl ih =>
    obtain ⟨b, e⟩ := hd
    by_cases hb : b = a
    · subst hb
      simp [heapLookup, heapUpdate]
    · rw [heapLookup, if_neg hb] at hl
      rw [heapUpdate, if_neg hb, heapLookup, if_neg hb]
      exact ih hl

end RcString

namespace RcString

/-- C1: the claim says the handle returned by `copy_c_string` is in Owned
mode, i.e. `is_ref_counted` is true on its stored word.  The code refutes it:
source line 109 stores `encode_not_ref_counted(data->data)`, so the word has
the tag bit set and `is_ref_counted` returns false — the freshly copied
string is treated as borrowed.  This contradicts the comments at source lines
76-81 (a pointer allocated by rc_string has `no_ref_count` unset) and leaves
`encode_ref_counted` (which would make `is_ref_counted` true) dead code.
Concrete run: copying the two-byte string "hi" into a block whose data buffer
is allocated at address 1024. -/
theorem C1_copy_is_borrowed :
    copy_c_string [] [104, 105] (some 1024) =
      .ok ([(1024, ⟨initial_ref_count, [104, 105, 0]⟩)], encode_not_ref_counted 1024) ∧
    is_ref_counted (encode_not_ref_counted 1024) = false ∧
    is_ref_counted (encode_ref_counted 1024) = true :=
  ⟨rfl, rfl, rfl⟩

/-- C2: scenario A = copy_c_string("hello") (block at address 1024),
B = copy of A, destroy A, destroy B.  Because the copied handle is mis-tagged
as borrowed (see C1), every step after the allocation leaves the heap
untouched: copy-constructing B does not change the heap, destroying A leaves
the heap — and hence the view of B — unchanged (that half of the claim
holds), but destroying B is the very same `decrement_ref_count` call on the
very same state and also leaves the heap unchanged, so the block is never
freed: one allocation and ZERO frees, a leak, refuting "destroying B frees
the Block exactly once". -/
theorem C2_destroy_never_frees :
    copy_c_string [] [104, 101, 108, 108, 111] (some 1024) =
      .ok ([(1024, ⟨initial_ref_count, [104, 101, 108, 108, 111, 0]⟩)],
        encode_not_ref_counted 1024) ∧
    copy_construct [(1024, ⟨initial_ref_count, [104, 101, 108, 108, 111, 0]⟩)]
        (encode_not_ref_counted 1024) =
      .ok ([(1024, ⟨initial_ref_count, [104, 101, 108, 108, 111, 0]⟩)],
        encode_not_ref_counted 1024) ∧
    destruct [(1024, ⟨initial_ref_count, [104, 101, 108, 108, 111, 0]⟩)]
        (encode_not_ref_counted 1024) =
      .ok [(1024, ⟨initial_ref_count, [104, 101, 108, 108, 111, 0]⟩)] ∧
    view [] [(1024, ⟨initial_ref_count, [104, 101, 108, 108, 111, 0]⟩)]
        (encode_not_ref_counted 1024) =
      some [104, 101, 108, 108, 111, 0] ∧
    heapLookup [(1024, ⟨initial_ref_count, [104, 101, 108, 108, 111, 0]⟩)] 1024 =
      some ⟨initial_ref_count, [104, 101, 108, 108, 111, 0]⟩ :=
  ⟨rfl, rfl, rfl, rfl, rfl⟩

/-- C3: the claim says copy-construction of an owned handle increments the
ref count of the shared block so that ref_count = sharers - 1 after every
operation.  The code refutes it: after `copy_c_string("a")` (block at address
512) and one copy-construction, both handles hold the word
`encode_not_ref_counted 512`, whose `c_str` decodes to 512 — two live handles
share the block at 512 — yet the ref count is still `initial_ref_count = 0`,
not 2 - 1 = 1, because the mis-tagged word (see C1) makes
`increment_ref_count` skip the block. -/
theorem C3_refcount_not_incremented :
    copy_c_string [] [97] (some 512) =
      .ok ([(512, ⟨initial_ref_count, [97, 0]⟩)], encode_not_ref_counted 512) ∧
    copy_construct [(512, ⟨initial_ref_count, [97, 0]⟩)] (encode_not_ref_counted 512) =
      .ok ([(512, ⟨initial_ref_count, [97, 0]⟩)], encode_not_ref_counted 512) ∧
    c_str (encode_not_ref_counted 512) = 512 ∧
    heapLookup [(512, ⟨initial_ref_count, [97, 0]⟩)] 512 =
      some ⟨initial_ref_count, [97, 0]⟩ ∧
    initial_ref_count ≠ 2 - 1 :=
  ⟨rfl, rfl, rfl, rfl, by decide⟩

/-- C4: for every null-free byte sequence s and canonical fresh data address,
the handle produced by `copy_c_string` decodes (via `c_str`) to the address
of the copied buffer, the buffer it points at holds exactly s followed by a
single null terminator, and the copy has exactly length s + 1 bytes. -/
theorem C4_copy_view_roundtrip (h0 : Heap) (s : List Nat) (addr : Nat)
    (hnull : (0 : Nat) ∉ s) (hcanon : addr < 2 ^ 63) :
    ∀ h1 w, copy_c_string h0 s (some addr) = .ok (h1, w) →
      c_str w = addr ∧ view [] h1 w = some (s ++ [0]) ∧
      (s ++ [0]).length = s.length + 1 := by
  intro h1 w hw
  rw [copy_c_string] at hw
  injection hw with hw
  injection hw with hh hwd
  subst hh
  subst hwd
  have hc : c_str (encode_not_ref_counted addr) = addr :=
    decode_encode_not_of_lt addr hcanon
  refine ⟨hc, ?_, by simp⟩
  rw [view, hc, heapLookup]
  simp

/-- Witness for C4 at s = "hi", address 4, empty initial heap. -/
theorem C4_copy_view_roundtrip_witness :
    ((0 : Nat) ∉ [104, 105] ∧ (4 : Nat) < 2 ^ 63) ∧
    (c_str (encode_not_ref_counted 4) = 4 ∧
      view [] [(4, ⟨initial_ref_count, [104, 105, 0]⟩)] (encode_not_ref_counted 4) =
        some ([104, 105] ++ [0]) ∧
      ([104, 105] ++ [0]).length = [104, 105].length + 1) :=
  ⟨⟨by decide, by decide⟩,
    C4_copy_view_roundtrip [] [104, 105] 4 (by decide) (by decide) _ _ rfl⟩

/-- C5: when `std::malloc` fails inside `copy_c_string`, the constructor
does not test for null; its first store, `data->ref_count =
initial_ref_count`, goes through the null pointer, which the model makes a
fatal trap.  The operation therefore never returns a handle, never continues
as if allocation had succeeded, and surfaces no recoverable error value. -/
theorem C5_alloc_failure_fatal (h : Heap) (s : List Nat) :
    copy_c_string h s none = .error .nullStore :=
  rfl

/-- C6: incrementing the ref count of a ref-counted handle whose block sits
at the top of the representable range of the C int counter trips the fatal
assertion (`checked_add` returns nothing and `QLJS_ASSERT` fires); below the
bound the stored count becomes exactly the old count plus one — never a
silently wrapped smaller value. -/
theorem C6_refcount_overflow_fatal (h : Heap) (w : Nat) (d : ref_counted_string_data)
    (hrc : is_ref_counted w = true) (hl : heapLookup h w = some d)
    (hfloor : 0 ≤ d.ref_count) :
    (d.ref_count = intMax → increment_ref_count h w = .error .assertionFailure) ∧
    (d.ref_count < intMax →
      increment_ref_count h w = .ok (heapUpdate h w ⟨d.ref_count + 1, d.data⟩)) := by
  constructor
  · intro hmax
    have hadd : checked_add d.ref_count 1 = none := by
      rw [checked_add, if_neg]
      rw [hmax]
      intro hcon
      omega
    simp [increment_ref_count, hrc, hl, hadd]
  · intro hlt
    have hadd : checked_add d.ref_count 1 = some (d.ref_count + 1) := by
      rw [checked_add, if_pos]
      constructor
      · have : intMin < 0 := by decide
        omega
      · omega
    simp [increment_ref_count, hrc, hl, hadd]

/-- Witness for C6 at a one-block heap whose block at address 4 already has
ref_count = intMax: the increment is a fatal assertion. -/
theorem C6_refcount_overflow_fatal_witness :
    increment_ref_count [(4, ⟨intMax, [0]⟩)] 4 = .error .assertionFailure :=
  (C6_refcount_overflow_fatal [(4, ⟨intMax, [0]⟩)] 4 ⟨intMax, [0]⟩
    (by decide) rfl (by decide)).1 rfl

end RcString

namespace RcString

/-- C7: move-constructing a destination D from any source handle S leaves the
heap — and hence every ref count — unchanged, gives D exactly the word S
held (so D reads the original content), and resets S to the borrowed empty
sentinel, whose view is the empty string (just the null terminator), given
that the static empty literal is foreign memory and not a heap block. -/
theorem C7_move_construct_resets_source (h : Heap) (ext : ExtMem) (src : Nat)
    (hext : extLookup ext empty_string_addr = some [0])
    (hheap : heapLookup h empty_string_addr = none) :
    move_construct h src = .ok (h, src, encoded_empty_string) ∧
    view ext h encoded_empty_string = some [0] := by
  have hsent : is_ref_counted encoded_empty_string = false := rfl
  constructor
  · rw [move_construct, increment_ref_count, hsent]
    simp
  · have hc : c_str encoded_empty_string = empty_string_addr := rfl
    rw [view, hc, hheap, hext]

/-- Witness for C7: foreign memory holding only the empty literal, an empty
heap, and a source handle with word 5. -/
theorem C7_move_construct_resets_source_witness :
    (extLookup [(empty_string_addr, [0])] empty_string_addr = some [0] ∧
      heapLookup [] empty_string_addr = none) ∧
    (move_construct [] 5 = .ok ([], 5, encoded_empty_string) ∧
      view [(empty_string_addr, [0])] [] encoded_empty_string = some [0]) :=
  ⟨⟨rfl, rfl⟩, C7_move_construct_resets_source [] [(empty_string_addr, [0])] 5 rfl rfl⟩

/-- C8: self-assignment, both copying and moving (the C++ `this != &other`
test is false, modelled by sameObject = true), is a no-op: the heap is
untouched — no block freed, no ref count changed — and the handle keeps its
word, hence its view. -/
theorem C8_self_assignment_noop (h : Heap) (w : Nat) :
    copy_assign h w w true = .ok (h, w) ∧
    move_assign h w w true = .ok (h, w, w) :=
  ⟨rfl, rfl⟩

/-- C9: for every 64-bit address with the tag bit (bit 63) clear, decoding
either encoding reconstructs the original address bit-for-bit: the tag is a
pure, reversible bit operation. -/
theorem C9_encode_decode_roundtrip (p : Nat) (hp : p < 2 ^ 63) :
    decode (encode_not_ref_counted p) = p ∧ decode (encode_ref_counted p) = p :=
  ⟨decode_encode_not_of_lt p hp, decode_of_lt p hp⟩

/-- Witness for C9 at the address 5. -/
theorem C9_encode_decode_roundtrip_witness :
    (5 : Nat) < 2 ^ 63 ∧
    (decode (encode_not_ref_counted 5) = 5 ∧ decode (encode_ref_counted 5) = 5) :=
  ⟨by decide, C9_encode_decode_roundtrip 5 (by decide)⟩

/-- C10: assigning between two distinct handle objects (sameObject = false)
that hold the same ref-counted word — so they share one block whose ref
count is at least 1 — leaves that block allocated with its ref count and
contents unchanged: the decrement on the destination does not reach the
sole-owner floor, and the subsequent increment restores the count. -/
theorem C10_aliasing_assign_preserves_block (h : Heap) (addr : Nat)
    (d : ref_counted_string_data)
    (hrc : is_ref_counted addr = true)
    (hl : heapLookup h addr = some d)
    (hlo : 1 ≤ d.ref_count) (hhi : d.ref_count ≤ intMax) :
    ∃ h3, copy_assign h addr addr false = .ok (h3, addr) ∧
      heapLookup h3 addr = some d := by
  obtain ⟨r, bytes⟩ := d
  simp only at hlo hhi
  have hne : ¬(r = initial_ref_count) := by
    rw [initial_ref_count]
    omega
  have hdec : decrement_ref_count h addr = .ok (heapUpdate h addr ⟨r - 1, bytes⟩) := by
    simp [decrement_ref_count, hrc, hl, hne]
  have hlu : heapLookup (heapUpdate h addr ⟨r - 1, bytes⟩) addr = some ⟨r - 1, bytes⟩ :=
    heapLookup_update_self h addr ⟨r, bytes⟩ ⟨r - 1, bytes⟩ hl
  have hadd : checked_add (r - 1) 1 = some r := by
    rw [checked_add, if_pos]
    · rw [sub_add_cancel]
    · constructor
      · have : intMin < 0 := by decide
        omega
      · omega
  have hinc : increment_ref_count (heapUpdate h addr ⟨r - 1, bytes⟩) addr =
      .ok (heapUpdate (heapUpdate h addr ⟨r - 1, bytes⟩) addr ⟨r, bytes⟩) := by
    simp [increment_ref_count, hrc, hlu, hadd]
  refine ⟨heapUpdate (heapUpdate h addr ⟨r - 1, bytes⟩) addr ⟨r, bytes⟩, ?_, ?_⟩
  · rw [copy_assign]
    simp [hdec, hinc]
  · exact heapLookup_update_self _ addr ⟨r - 1, bytes⟩ ⟨r, bytes⟩ hlu

/-- Witness for C10: a one-block heap at address 4 with ref count 1 (two
sharing handles); assigning one aliasing handle to the other keeps the block
with ref count 1. -/
theorem C10_aliasing_assign_preserves_block_witness :
    (is_ref_counted 4 = true ∧ (1 : Int) ≤ 1 ∧ (1 : Int) ≤ intMax) ∧
    (∃ h3, copy_assign [(4, ⟨1, [97, 0]⟩)] 4 4 false = .ok (h3, 4) ∧
      heapLookup h3 4 = some ⟨1, [97, 0]⟩) :=
  ⟨⟨by decide, by decide, by decide⟩,
    C10_aliasing_assign_preserves_block [(4, ⟨1, [97, 0]⟩)] 4 ⟨1, [97, 0]⟩
      (by decide) rfl (by decide) (by decide)⟩

end RcString
